import Mathlib

/-!
Shallow embedding of `src/visual_results.py` (repository megpatakota/climate_patent).

The module is a one-shot evaluation reporter: it derives predicted labels by
thresholding predicted probabilities at 0.5, ensures the output directory
exists, and produces four artifacts (confusion-matrix PNG, classification
report text file, ROC-curve PNG, precision-recall-curve PNG), with broad
try/except blocks around the orchestration and around each artifact generator.

Modelling choices:
* A pandas `DataFrame` is an association list from column name to a list of
  cell values (`Val`).  `df[c]` raising `KeyError` on a missing column is
  `getCol` returning `Except.error`; in-place column assignment is `setCol`.
* Floating-point scalars are `FVal`: a rational, or one of the IEEE
  non-finite values `nan`, `inf`, `ninf`.  The comparison `p >= 0.5` is
  `FVal.ge05`, false on `nan` as in IEEE arithmetic.
* Side effects (logging, `os.makedirs`, figure creation via `disp.plot()` /
  `plt.figure()`, `plt.savefig`, file writes, `plt.close()`) are recorded in
  an effect trace (`Eff`).  Each Python function becomes a Lean function
  returning its trace together with an `Except ExnErr Unit` telling whether an
  exception escapes it.
* The external world (the inference capability `predict_proba`, directory
  creation, and whether writing a given path succeeds) is an `Env` parameter,
  so theorems quantify over every possible behavior of the collaborators.
* The sklearn metric functions called by the source (`confusion_matrix`,
  `classification_report`, `roc_curve`/`auc`, `precision_recall_curve`/
  `average_precision_score`) are external library collaborators; they are
  modelled here by their documented semantics over exact rationals.
-/

namespace VisualResults

/-- An IEEE-style floating-point scalar: a finite rational or a non-finite
value.  `nan` compares false under `≥`, and numpy sorting places `nan` last
(largest); `inf` is above every finite value, `ninf` below. -/
inductive FVal where
  | fin (q : ℚ)
  | nan
  | inf
  | ninf
deriving DecidableEq

/-- A cell value of the table: integer label, raw text, or float. -/
inductive Val where
  | int (i : ℤ)
  | str (s : String)
  | fl (x : FVal)
deriving DecidableEq

/-- A pandas DataFrame, modelled as an association list column-name ↦ column. -/
abbrev DataFrame := List (String × List Val)

/-- The exceptions that can be raised inside this module. -/
inductive ExnErr where
  | keyError (k : String)
  | predictError (msg : String)
  | ioError (path : String)
deriving DecidableEq

/-- Log levels used by the module (`logging.info` / `logging.error`). -/
inductive Lvl where
  | info
  | error
deriving DecidableEq

/-- A per-class row of the classification report: label, precision, recall,
F1 and support, computed over exact rationals. -/
structure ReportRow where
  label : Val
  prc : ℚ
  rcl : ℚ
  f1 : ℚ
  support : ℕ
deriving DecidableEq

/-- Observable side effects of a run, in order of occurrence. -/
inductive Eff where
  | log (lvl : Lvl) (msg : String)
  | mkdirs (dir : String)
  | plotCM (cm : List (List ℕ))
  | writeReport (path : String) (rows : List ReportRow)
  | figOpen
  | plotROC (a : Option ℚ)
  | plotPR (a : Option ℚ)
  | savefig (path : String)
  | figClose
deriving DecidableEq

/-- The behavior of the external collaborators during one run: the inference
capability (`predict_proba`), whether `os.makedirs` succeeds, and whether
saving/writing a given path succeeds. -/
structure Env where
  predict : List Val → Except ExnErr (List FVal)
  mkdirOk : Bool
  fileOk : String → Bool

/-- The configuration slice the source reads: `config["evaluation"]["output_dir"]`. -/
structure Config where
  output_dir : String

/-- `df[name]`: the column, or a `KeyError` when absent. -/
def getCol : DataFrame → String → Except ExnErr (List Val)
  | [], name => .error (.keyError name)
  | (n, c) :: rest, name => if n = name then .ok c else getCol rest name

/-- `df[name] = col`: replace the column in place, or append it when new. -/
def setCol : DataFrame → String → List Val → DataFrame
  | [], name, col => [(name, col)]
  | (n, c) :: rest, name, col =>
      if n = name then (n, col) :: rest else (n, c) :: setCol rest name col

/-- `os.path.join(dir, file)` for the simple relative names used here. -/
def joinPath (dir file : String) : String := dir ++ "/" ++ file

/-- Render an exception as the text interpolated into the log message. -/
def errMsg : ExnErr → String
  | .keyError k => k
  | .predictError m => m
  | .ioError p => p

/-- IEEE comparison `x >= 0.5` (false on `nan`). -/
def FVal.ge05 : FVal → Bool
  | .fin q => (1 / 2 : ℚ) ≤ q
  | .nan => false
  | .inf => true
  | .ninf => false

/-- `(p >= 0.5).astype(int)` applied to one scalar: the comparison result
cast to an integer. -/
def thresholdLabel (p : FVal) : ℤ := if p.ge05 then 1 else 0

/-- Total order used to model numpy sorting of floats: `ninf` below all
finite values, `inf` above them, `nan` sorted last (largest). -/
def FVal.leb : FVal → FVal → Bool
  | _, .nan => true
  | .nan, _ => false
  | .ninf, _ => true
  | _, .ninf => false
  | .fin _, .inf => true
  | .inf, .inf => true
  | .inf, .fin _ => false
  | .fin a, .fin b => a ≤ b

/-- Total order on cell values used to model `np.unique` sorting. -/
def Val.leb : Val → Val → Bool
  | .int a, .int b => a ≤ b
  | .int _, _ => true
  | .fl _, .int _ => false
  | .fl a, .fl b => a.leb b
  | .fl _, .str _ => true
  | .str a, .str b => a ≤ b
  | .str _, _ => false

/-- Insert into a list sorted ascending by `le`. -/
def insertAscBy {α : Type} (le : α → α → Bool) (x : α) : List α → List α
  | [] => [x]
  | y :: ys => if le x y then x :: y :: ys else y :: insertAscBy le x ys

/-- Insertion sort ascending by `le`. -/
def sortAscBy {α : Type} (le : α → α → Bool) : List α → List α
  | [] => []
  | x :: xs => insertAscBy le x (sortAscBy le xs)

/-- Collapse adjacent duplicates of a sorted list. -/
def dedupAdj {α : Type} [DecidableEq α] : List α → List α
  | [] => []
  | [x] => [x]
  | x :: y :: ys => if x = y then dedupAdj (y :: ys) else x :: dedupAdj (y :: ys)

/-- `np.unique`: sorted (ascending) distinct values. -/
def uniqueVals (xs : List Val) : List Val := dedupAdj (sortAscBy Val.leb xs)

/-- Distinct score values sorted descending: the thresholds used by
`roc_curve` and `precision_recall_curve`. -/
def dedupSortDesc (xs : List FVal) : List FVal :=
  (dedupAdj (sortAscBy FVal.leb xs)).reverse

/-- sklearn `confusion_matrix(y_true, y_pred, labels=labels)`:
entry (i, j) counts records with true label `labels[i]` and predicted label
`labels[j]`. -/
def confusionMatrixL (yt yp : List Val) (labels : List Val) : List (List ℕ) :=
  labels.map fun a =>
    labels.map fun b => (yt.zip yp).countP fun r => r.1 = a ∧ r.2 = b

/-- One per-class row of sklearn `classification_report`, with the
return-zero-on-zero-division convention. -/
def rowFor (yt yp : List Val) (l : Val) : ReportRow :=
  let tp := (yt.zip yp).countP fun r => r.1 = l ∧ r.2 = l
  let predP := yp.count l
  let support := yt.count l
  let prc : ℚ := if predP = 0 then 0 else (tp : ℚ) / (predP : ℚ)
  let rcl : ℚ := if support = 0 then 0 else (tp : ℚ) / (support : ℚ)
  let f1 : ℚ := if prc + rcl = 0 then 0 else 2 * prc * rcl / (prc + rcl)
  ⟨l, prc, rcl, f1, support⟩

/-- sklearn `classification_report` restricted to its per-class rows. -/
def reportRows (yt yp : List Val) (labels : List Val) : List ReportRow :=
  labels.map (rowFor yt yp)

/-- True positives at threshold `t`: positives whose score is `≥ t`. -/
def tpAt (yt : List Val) (ys : List FVal) (t : FVal) : ℕ :=
  (yt.zip ys).countP fun r => r.1 = Val.int 1 ∧ FVal.leb t r.2

/-- False positives at threshold `t`: non-positives whose score is `≥ t`. -/
def fpAt (yt : List Val) (ys : List FVal) (t : FVal) : ℕ :=
  (yt.zip ys).countP fun r => r.1 ≠ Val.int 1 ∧ FVal.leb t r.2

/-- The ROC points (fpr, tpr) swept over descending thresholds, preceded by
the (0, 0) point that `roc_curve` prepends. -/
def rocPoints (yt : List Val) (ys : List FVal) : List (ℚ × ℚ) :=
  let p := yt.count (Val.int 1)
  let n := yt.countP fun v => v ≠ Val.int 1
  (0, 0) :: (dedupSortDesc ys).map fun t =>
    ((fpAt yt ys t : ℚ) / (n : ℚ), (tpAt yt ys t : ℚ) / (p : ℚ))

/-- Trapezoidal area under a piecewise-linear curve given by points. -/
def trapezoid : List (ℚ × ℚ) → ℚ
  | [] => 0
  | [_] => 0
  | a :: b :: rest => (b.1 - a.1) * (a.2 + b.2) / 2 + trapezoid (b :: rest)

/-- `auc(*roc_curve(y_true, y_score)[:2])`: the area under the ROC curve;
undefined (`none`, i.e. IEEE nan) when a class is absent from the true
labels. -/
def rocAUC (yt : List Val) (ys : List FVal) : Option ℚ :=
  if yt.count (Val.int 1) = 0 ∨ yt.countP (fun v => v ≠ Val.int 1) = 0 then none
  else some (trapezoid (rocPoints yt ys))

/-- The summation of `average_precision_score`: Σ (Rₙ - Rₙ₋₁) · Pₙ over
descending thresholds, threading the previous recall. -/
def apSum (yt : List Val) (ys : List FVal) (p : ℕ) : List FVal → ℚ → ℚ
  | [], _ => 0
  | t :: rest, rPrev =>
      let tp := tpAt yt ys t
      let fp := fpAt yt ys t
      let prc : ℚ := if tp + fp = 0 then 0 else (tp : ℚ) / ((tp : ℚ) + (fp : ℚ))
      let rcl : ℚ := (tp : ℚ) / (p : ℚ)
      (rcl - rPrev) * prc + apSum yt ys p rest rcl

/-- `average_precision_score(y_true, y_score)`; undefined (`none`) when there
is no positive example. -/
def avgPrecision (yt : List Val) (ys : List FVal) : Option ℚ :=
  let p := yt.count (Val.int 1)
  if p = 0 then none else some (apSum yt ys p (dedupSortDesc ys) 0)

/-- The confusion matrix `plot_confusion_matrix` computes: over an explicit
one-element label list when the union of observed labels has a single
distinct value, otherwise over the default label set (the sorted unique
union). -/
def cmOf (yt yp : List Val) : List (List ℕ) :=
  match uniqueVals (yt ++ yp) with
  | [l] => confusionMatrixL yt yp [l]
  | ul => confusionMatrixL yt yp ul

/-- The per-class rows `generate_classification_report` computes, with the
same single-distinct-value special case. -/
def reportRowsOf (yt yp : List Val) : List ReportRow :=
  match uniqueVals (yt ++ yp) with
  | [l] => reportRows yt yp [l]
  | ul => reportRows yt yp ul

/-- The `try:` body of `plot_confusion_matrix`: compute the unique labels of
the union, special-case a single label by passing an explicit one-element
label list, render (`disp.plot()` opens a figure), save the figure (which can
raise), close it, and log. -/
def plotConfusionMatrixBody (env : Env) (yt yp : List Val) (dir : String) :
    List Eff × Except ExnErr Unit :=
  let cm := cmOf yt yp
  let path := joinPath dir "confusion_matrix.png"
  if env.fileOk path then
    ([.plotCM cm, .savefig path, .figClose,
      .log .info ("Confusion matrix saved to " ++ path ++ ".")], .ok ())
  else
    ([.plotCM cm], .error (.ioError path))

/-- The `except Exception` wrapper shared by every function of the module:
on an exception, log an error message containing the original error text and
return normally. -/
def catchLogged (pre : String) (m : List Eff × Except ExnErr Unit) :
    List Eff × Except ExnErr Unit :=
  match m with
  | (t, .ok ()) => (t, .ok ())
  | (t, .error e) => (t ++ [.log .error (pre ++ errMsg e)], .ok ())

/-- `plot_confusion_matrix(true_labels, predicted_labels, output_dir)`. -/
def plot_confusion_matrix (env : Env) (yt yp : List Val) (dir : String) :
    List Eff × Except ExnErr Unit :=
  catchLogged "Failed to generate confusion matrix: "
    (plotConfusionMatrixBody env yt yp dir)

/-- The `try:` body of `generate_classification_report`: same single-label
special case, then open the report file for writing (which can raise) and
write the textual report. -/
def generateClassificationReportBody (env : Env) (yt yp : List Val)
    (dir : String) : List Eff × Except ExnErr Unit :=
  let rows := reportRowsOf yt yp
  let path := joinPath dir "classification_report.txt"
  if env.fileOk path then
    ([.writeReport path rows,
      .log .info ("Classification report saved to " ++ path ++ ".")], .ok ())
  else
    ([], .error (.ioError path))

/-- `generate_classification_report(true_labels, predicted_labels, output_dir)`. -/
def generate_classification_report (env : Env) (yt yp : List Val)
    (dir : String) : List Eff × Except ExnErr Unit :=
  catchLogged "Failed to generate classification report: "
    (generateClassificationReportBody env yt yp dir)

/-- The `try:` body of `plot_roc_curve`: compute the curve and its AUC, open
a fresh figure (`plt.figure()`), draw, save (which can raise), close, log. -/
def plotRocCurveBody (env : Env) (yt : List Val) (ys : List FVal)
    (dir : String) : List Eff × Except ExnErr Unit :=
  let a := rocAUC yt ys
  let path := joinPath dir "roc_curve.png"
  if env.fileOk path then
    ([.figOpen, .plotROC a, .savefig path, .figClose,
      .log .info ("ROC curve saved to " ++ path ++ ".")], .ok ())
  else
    ([.figOpen, .plotROC a], .error (.ioError path))

/-- `plot_roc_curve(true_labels, predicted_probabilities, output_dir)`. -/
def plot_roc_curve (env : Env) (yt : List Val) (ys : List FVal)
    (dir : String) : List Eff × Except ExnErr Unit :=
  catchLogged "Failed to generate ROC curve: " (plotRocCurveBody env yt ys dir)

/-- The `try:` body of `plot_precision_recall_curve`. -/
def plotPrecisionRecallCurveBody (env : Env) (yt : List Val) (ys : List FVal)
    (dir : String) : List Eff × Except ExnErr Unit :=
  let a := avgPrecision yt ys
  let path := joinPath dir "precision_recall_curve.png"
  if env.fileOk path then
    ([.figOpen, .plotPR a, .savefig path, .figClose,
      .log .info ("Precision-Recall curve saved to " ++ path ++ ".")], .ok ())
  else
    ([.figOpen, .plotPR a], .error (.ioError path))

/-- `plot_precision_recall_curve(true_labels, predicted_probabilities, output_dir)`. -/
def plot_precision_recall_curve (env : Env) (yt : List Val) (ys : List FVal)
    (dir : String) : List Eff × Except ExnErr Unit :=
  catchLogged "Failed to generate Precision-Recall curve: "
    (plotPrecisionRecallCurveBody env yt ys dir)

/-- The `try:` body of `generate_evaluation_reports_and_plots`, returning the
trace, the data frame as mutated so far (Python mutates `df` in place), and
whether an exception escapes the body.  The inference capability is the
`Env`'s `predict`; its result list is assumed aligned with the texts, as the
collaborating inference routine guarantees. -/
def generateBody (env : Env) (df : DataFrame) (cfg : Config) :
    List Eff × DataFrame × Except ExnErr Unit :=
  let t0 : List Eff := [.log .info "Generating evaluation reports and plots..."]
  match getCol df "yo2" with
  | .error e => (t0, df, .error e)
  | .ok trueLabels =>
    let t1 := t0 ++ [Eff.log .info "Calculating predicted probabilities..."]
    match getCol df "full_text" with
    | .error e => (t1, df, .error e)
    | .ok texts =>
      match env.predict texts with
      | .error e => (t1, df, .error e)
      | .ok probs =>
        let df1 := setCol df "predicted_proba" (probs.map Val.fl)
        let predLabels := probs.map fun p => Val.int (thresholdLabel p)
        let df2 := setCol df1 "predicted_yo2" predLabels
        let outDir := cfg.output_dir
        if env.mkdirOk then
          match plot_confusion_matrix env trueLabels predLabels outDir with
          | (tCM, .error e) => (t1 ++ [.mkdirs outDir] ++ tCM, df2, .error e)
          | (tCM, .ok ()) =>
            match generate_classification_report env trueLabels predLabels outDir with
            | (tCR, .error e) =>
                (t1 ++ [.mkdirs outDir] ++ tCM ++ tCR, df2, .error e)
            | (tCR, .ok ()) =>
              match plot_roc_curve env trueLabels probs outDir with
              | (tROC, .error e) =>
                  (t1 ++ [.mkdirs outDir] ++ tCM ++ tCR ++ tROC, df2, .error e)
              | (tROC, .ok ()) =>
                match plot_precision_recall_curve env trueLabels probs outDir with
                | (tPR, .error e) =>
                    (t1 ++ [.mkdirs outDir] ++ tCM ++ tCR ++ tROC ++ tPR, df2,
                     .error e)
                | (tPR, .ok ()) =>
                    (t1 ++ [.mkdirs outDir] ++ tCM ++ tCR ++ tROC ++ tPR ++
                       [.log .info
                          "Evaluation reports and plots generated successfully."],
                     df2, .ok ())
        else
          (t1, df2, .error (.ioError outDir))

/-- `generate_evaluation_reports_and_plots(df, model, tokenizer, device,
config)`: the body wrapped in the top-level `try/except` that logs and
returns normally. -/
def generate_evaluation_reports_and_plots (env : Env) (df : DataFrame)
    (cfg : Config) : List Eff × DataFrame × Except ExnErr Unit :=
  match generateBody env df cfg with
  | (t, df2, .ok ()) => (t, df2, .ok ())
  | (t, df2, .error e) =>
      (t ++ [.log .error
        ("Failed to generate evaluation reports and plots: " ++ errMsg e)],
       df2, .ok ())

/-- The file paths written by a trace (`plt.savefig` and report-file writes),
in order. -/
def writesOf : List Eff → List String
  | [] => []
  | .savefig p :: rest => p :: writesOf rest
  | .writeReport p _ :: rest => p :: writesOf rest
  | _ :: rest => writesOf rest

/-- Effects that open a matplotlib figure (`disp.plot()` / `plt.figure()`). -/
def opensFig : Eff → Bool
  | .plotCM _ => true
  | .figOpen => true
  | _ => false

/-- Effects that close the current matplotlib figure (`plt.close()`). -/
def closesFig : Eff → Bool
  | .figClose => true
  | _ => false

/-- Effects other than logging: directory creation, figure activity, file
writes — everything an artifact generator or `os.makedirs` would do. -/
def isArtifactEff : Eff → Bool
  | .log _ _ => false
  | _ => true

/-- Whether the run fails in a step before the `os.makedirs` call: a missing
`yo2` or `full_text` column, or a raising inference call. -/
def preFails (env : Env) (df : DataFrame) : Bool :=
  match getCol df "yo2" with
  | .error _ => true
  | .ok _ =>
    match getCol df "full_text" with
    | .error _ => true
    | .ok texts =>
      match env.predict texts with
      | .error _ => true
      | .ok _ => false

/-- A concrete two-row data frame used to instantiate the theorems. -/
def df0 : DataFrame :=
  [("yo2", [Val.int 0, Val.int 1]), ("full_text", [Val.str "a", Val.str "b"])]

/-- A concrete fully-cooperative environment: inference returns probabilities
0.1 and 0.9, directory creation and every file write succeed. -/
def env0 : Env :=
  ⟨fun _ => .ok [FVal.fin (1 / 10), FVal.fin (9 / 10)], true, fun _ => true⟩

/-- A concrete configuration. -/
def cfg0 : Config := ⟨"out"⟩

/-- Like `env0`, except that writing the classification-report file fails
while every other path remains writable. -/
def env1 : Env :=
  ⟨fun _ => .ok [FVal.fin (1 / 10), FVal.fin (9 / 10)], true,
   fun p => decide (p ≠ joinPath "out" "classification_report.txt")⟩

/-! ## Helper lemmas -/

theorem catchLogged_snd (pre : String) (m : List Eff × Except ExnErr Unit) :
    (catchLogged pre m).2 = .ok () := by
  obtain ⟨t, r⟩ := m
  cases r with
  | ok a => cases a; rfl
  | error e => rfl

theorem subop_eta (m : List Eff × Except ExnErr Unit) (h : m.2 = .ok ()) :
    m = (m.1, .ok ()) := by
  obtain ⟨t, r⟩ := m
  cases r with
  | ok a => cases a; rfl
  | error e => exact absurd h (by simp)

theorem plot_confusion_matrix_snd (env : Env) (yt yp : List Val)
    (dir : String) : (plot_confusion_matrix env yt yp dir).2 = .ok () :=
  catchLogged_snd _ _

theorem generate_classification_report_snd (env : Env) (yt yp : List Val)
    (dir : String) : (generate_classification_report env yt yp dir).2 = .ok () :=
  catchLogged_snd _ _

theorem plot_roc_curve_snd (env : Env) (yt : List Val) (ys : List FVal)
    (dir : String) : (plot_roc_curve env yt ys dir).2 = .ok () :=
  catchLogged_snd _ _

theorem plot_precision_recall_curve_snd (env : Env) (yt : List Val)
    (ys : List FVal) (dir : String) :
    (plot_precision_recall_curve env yt ys dir).2 = .ok () :=
  catchLogged_snd _ _

theorem getCol_setCol_self (df : DataFrame) (n : String) (col : List Val) :
    getCol (setCol df n col) n = .ok col := by
  induction df with
  | nil => simp [setCol, getCol]
  | cons hd rest ih =>
    obtain ⟨a, c⟩ := hd
    by_cases h : a = n
    · subst h; simp [setCol, getCol]
    · simp [setCol, getCol, h, ih]

theorem getCol_setCol_ne (df : DataFrame) (n m : String) (col : List Val)
    (h : m ≠ n) : getCol (setCol df n col) m = getCol df m := by
  induction df with
  | nil => simp [setCol, getCol, Ne.symm h]
  | cons hd rest ih =>
    obtain ⟨a, c⟩ := hd
    by_cases ha : a = n
    · subst ha; simp [setCol, getCol, Ne.symm h]
    · simp [setCol, getCol, ha, ih]

theorem writesOf_append (a b : List Eff) :
    writesOf (a ++ b) = writesOf a ++ writesOf b := by
  induction a with
  | nil => rfl
  | cons e rest ih => cases e <;> simp [writesOf, ih]

theorem plot_confusion_matrix_trace_ok (env : Env) (yt yp : List Val)
    (dir : String) (h : env.fileOk (joinPath dir "confusion_matrix.png") = true) :
    (plot_confusion_matrix env yt yp dir).1 =
      [.plotCM (cmOf yt yp), .savefig (joinPath dir "confusion_matrix.png"),
       .figClose,
       .log .info
         ("Confusion matrix saved to " ++ joinPath dir "confusion_matrix.png" ++ ".")] := by
  simp [plot_confusion_matrix, plotConfusionMatrixBody, h, catchLogged]

theorem plot_confusion_matrix_trace_fail (env : Env) (yt yp : List Val)
    (dir : String) (h : env.fileOk (joinPath dir "confusion_matrix.png") = false) :
    (plot_confusion_matrix env yt yp dir).1 =
      [.plotCM (cmOf yt yp),
       .log .error
         ("Failed to generate confusion matrix: " ++
            errMsg (.ioError (joinPath dir "confusion_matrix.png")))] := by
  simp [plot_confusion_matrix, plotConfusionMatrixBody, h, catchLogged]

theorem generate_classification_report_trace_ok (env : Env) (yt yp : List Val)
    (dir : String)
    (h : env.fileOk (joinPath dir "classification_report.txt") = true) :
    (generate_classification_report env yt yp dir).1 =
      [.writeReport (joinPath dir "classification_report.txt") (reportRowsOf yt yp),
       .log .info
         ("Classification report saved to " ++
            joinPath dir "classification_report.txt" ++ ".")] := by
  simp [generate_classification_report, generateClassificationReportBody, h,
    catchLogged]

theorem generate_classification_report_trace_fail (env : Env) (yt yp : List Val)
    (dir : String)
    (h : env.fileOk (joinPath dir "classification_report.txt") = false) :
    (generate_classification_report env yt yp dir).1 =
      [.log .error
         ("Failed to generate classification report: " ++
            errMsg (.ioError (joinPath dir "classification_report.txt")))] := by
  simp [generate_classification_report, generateClassificationReportBody, h,
    catchLogged]

theorem plot_roc_curve_trace_ok (env : Env) (yt : List Val) (ys : List FVal)
    (dir : String) (h : env.fileOk (joinPath dir "roc_curve.png") = true) :
    (plot_roc_curve env yt ys dir).1 =
      [.figOpen, .plotROC (rocAUC yt ys), .savefig (joinPath dir "roc_curve.png"),
       .figClose,
       .log .info ("ROC curve saved to " ++ joinPath dir "roc_curve.png" ++ ".")] := by
  simp [plot_roc_curve, plotRocCurveBody, h, catchLogged]

theorem plot_roc_curve_trace_fail (env : Env) (yt : List Val) (ys : List FVal)
    (dir : String) (h : env.fileOk (joinPath dir "roc_curve.png") = false) :
    (plot_roc_curve env yt ys dir).1 =
      [.figOpen, .plotROC (rocAUC yt ys),
       .log .error
         ("Failed to generate ROC curve: " ++
            errMsg (.ioError (joinPath dir "roc_curve.png")))] := by
  simp [plot_roc_curve, plotRocCurveBody, h, catchLogged]

theorem plot_precision_recall_curve_trace_ok (env : Env) (yt : List Val)
    (ys : List FVal) (dir : String)
    (h : env.fileOk (joinPath dir "precision_recall_curve.png") = true) :
    (plot_precision_recall_curve env yt ys dir).1 =
      [.figOpen, .plotPR (avgPrecision yt ys),
       .savefig (joinPath dir "precision_recall_curve.png"), .figClose,
       .log .info
         ("Precision-Recall curve saved to " ++
            joinPath dir "precision_recall_curve.png" ++ ".")] := by
  simp [plot_precision_recall_curve, plotPrecisionRecallCurveBody, h, catchLogged]

theorem plot_precision_recall_curve_trace_fail (env : Env) (yt : List Val)
    (ys : List FVal) (dir : String)
    (h : env.fileOk (joinPath dir "precision_recall_curve.png") = false) :
    (plot_precision_recall_curve env yt ys dir).1 =
      [.figOpen, .plotPR (avgPrecision yt ys),
       .log .error
         ("Failed to generate Precision-Recall curve: " ++
            errMsg (.ioError (joinPath dir "precision_recall_curve.png")))] := by
  simp [plot_precision_recall_curve, plotPrecisionRecallCurveBody, h, catchLogged]

/-- Shape of the orchestration body once the steps before directory creation
have succeeded: the trace, the data frame with its two added columns, and the
result, for both outcomes of `os.makedirs`. -/
theorem generateBody_of_pre (env : Env) (df : DataFrame) (cfg : Config)
    (yt texts : List Val) (probs : List FVal)
    (h1 : getCol df "yo2" = .ok yt)
    (h2 : getCol df "full_text" = .ok texts)
    (h3 : env.predict texts = .ok probs) :
    generateBody env df cfg =
      ((if env.mkdirOk then
          [Eff.log .info "Generating evaluation reports and plots...",
           Eff.log .info "Calculating predicted probabilities...",
           Eff.mkdirs cfg.output_dir] ++
          (plot_confusion_matrix env yt
            (probs.map fun p => Val.int (thresholdLabel p)) cfg.output_dir).1 ++
          (generate_classification_report env yt
            (probs.map fun p => Val.int (thresholdLabel p)) cfg.output_dir).1 ++
          (plot_roc_curve env yt probs cfg.output_dir).1 ++
          (plot_precision_recall_curve env yt probs cfg.output_dir).1 ++
          [Eff.log .info "Evaluation reports and plots generated successfully."]
        else
          [Eff.log .info "Generating evaluation reports and plots...",
           Eff.log .info "Calculating predicted probabilities..."]),
       setCol (setCol df "predicted_proba" (probs.map Val.fl)) "predicted_yo2"
         (probs.map fun p => Val.int (thresholdLabel p)),
       if env.mkdirOk then Except.ok ()
       else Except.error (.ioError cfg.output_dir)) := by
  cases hmk : env.mkdirOk with
  | false => simp [generateBody, h1, h2, h3, hmk]
  | true =>
    rcases hcm : plot_confusion_matrix env yt
        (probs.map fun p => Val.int (thresholdLabel p)) cfg.output_dir with ⟨tCM, rCM⟩
    have hcm2 : rCM = .ok () := by
      have := plot_confusion_matrix_snd env yt
        (probs.map fun p => Val.int (thresholdLabel p)) cfg.output_dir
      rw [hcm] at this; exact this
    subst hcm2
    rcases hcr : generate_classification_report env yt
        (probs.map fun p => Val.int (thresholdLabel p)) cfg.output_dir with ⟨tCR, rCR⟩
    have hcr2 : rCR = .ok () := by
      have := generate_classification_report_snd env yt
        (probs.map fun p => Val.int (thresholdLabel p)) cfg.output_dir
      rw [hcr] at this; exact this
    subst hcr2
    rcases hroc : plot_roc_curve env yt probs cfg.output_dir with ⟨tROC, rROC⟩
    have hroc2 : rROC = .ok () := by
      have := plot_roc_curve_snd env yt probs cfg.output_dir
      rw [hroc] at this; exact this
    subst hroc2
    rcases hpr : plot_precision_recall_curve env yt probs cfg.output_dir
      with ⟨tPR, rPR⟩
    have hpr2 : rPR = .ok () := by
      have := plot_precision_recall_curve_snd env yt probs cfg.output_dir
      rw [hpr] at this; exact this
    subst hpr2
    simp [generateBody, h1, h2, h3, hmk, hcm, hcr, hroc, hpr]

/-- The data frame after a run whose pre-directory steps succeed: both new
columns are set, whatever the later file-system outcomes. -/
theorem generate_df_of_pre (env : Env) (df : DataFrame) (cfg : Config)
    (yt texts : List Val) (probs : List FVal)
    (h1 : getCol df "yo2" = .ok yt)
    (h2 : getCol df "full_text" = .ok texts)
    (h3 : env.predict texts = .ok probs) :
    (generate_evaluation_reports_and_plots env df cfg).2.1 =
      setCol (setCol df "predicted_proba" (probs.map Val.fl)) "predicted_yo2"
        (probs.map fun p => Val.int (thresholdLabel p)) := by
  unfold generate_evaluation_reports_and_plots
  rw [generateBody_of_pre env df cfg yt texts probs h1 h2 h3]
  cases hmk : env.mkdirOk <;> simp [hmk]

/-- The trace of a run whose pre-directory steps and directory creation
succeed: the two opening logs, `os.makedirs`, then the four sub-operation
traces in order, then the closing log. -/
theorem generate_trace_of_success (env : Env) (df : DataFrame) (cfg : Config)
    (yt texts : List Val) (probs : List FVal)
    (h1 : getCol df "yo2" = .ok yt)
    (h2 : getCol df "full_text" = .ok texts)
    (h3 : env.predict texts = .ok probs)
    (hmk : env.mkdirOk = true) :
    (generate_evaluation_reports_and_plots env df cfg).1 =
      [Eff.log .info "Generating evaluation reports and plots...",
       Eff.log .info "Calculating predicted probabilities...",
       Eff.mkdirs cfg.output_dir] ++
      (plot_confusion_matrix env yt
        (probs.map fun p => Val.int (thresholdLabel p)) cfg.output_dir).1 ++
      (generate_classification_report env yt
        (probs.map fun p => Val.int (thresholdLabel p)) cfg.output_dir).1 ++
      (plot_roc_curve env yt probs cfg.output_dir).1 ++
      (plot_precision_recall_curve env yt probs cfg.output_dir).1 ++
      [Eff.log .info "Evaluation reports and plots generated successfully."] := by
  unfold generate_evaluation_reports_and_plots
  rw [generateBody_of_pre env df cfg yt texts probs h1 h2 h3]
  simp [hmk]

/-! ## Claims -/

/-- C1: for every input (data frame, environment behavior, configuration),
the orchestration `generate_evaluation_reports_and_plots` and each of the
four sub-operations return normally: the exception component of every result
is `ok`, so no exception propagates to the caller. -/
theorem claim_no_exception_escapes :
    (∀ (env : Env) (df : DataFrame) (cfg : Config),
      (generate_evaluation_reports_and_plots env df cfg).2.2 = .ok ()) ∧
    (∀ (env : Env) (yt yp : List Val) (dir : String),
      (plot_confusion_matrix env yt yp dir).2 = .ok ()) ∧
    (∀ (env : Env) (yt yp : List Val) (dir : String),
      (generate_classification_report env yt yp dir).2 = .ok ()) ∧
    (∀ (env : Env) (yt : List Val) (ys : List FVal) (dir : String),
      (plot_roc_curve env yt ys dir).2 = .ok ()) ∧
    (∀ (env : Env) (yt : List Val) (ys : List FVal) (dir : String),
      (plot_precision_recall_curve env yt ys dir).2 = .ok ()) := by
  refine ⟨?_, ?_, ?_, ?_, ?_⟩
  · intro env df cfg
    unfold generate_evaluation_reports_and_plots
    rcases generateBody env df cfg with ⟨t, df2, r⟩
    cases r with
    | ok a => cases a; rfl
    | error e => rfl
  · intro env yt yp dir; exact plot_confusion_matrix_snd env yt yp dir
  · intro env yt yp dir; exact generate_classification_report_snd env yt yp dir
  · intro env yt ys dir; exact plot_roc_curve_snd env yt ys dir
  · intro env yt ys dir; exact plot_precision_recall_curve_snd env yt ys dir

/-- C2: whenever the run reaches the thresholding step, the predicted-label
column equals the probabilities mapped through `thresholdLabel`, and the
threshold is inclusive at 0.5: probabilities `≥ 0.5` — in particular exactly
0.5 — map to 1, smaller ones to 0. -/
theorem claim_threshold_inclusive (env : Env) (df : DataFrame) (cfg : Config)
    (yt texts : List Val) (probs : List FVal)
    (h1 : getCol df "yo2" = .ok yt)
    (h2 : getCol df "full_text" = .ok texts)
    (h3 : env.predict texts = .ok probs) :
    getCol (generate_evaluation_reports_and_plots env df cfg).2.1 "predicted_yo2"
      = .ok (probs.map fun p => Val.int (thresholdLabel p)) ∧
    (∀ q : ℚ, 1 / 2 ≤ q → thresholdLabel (.fin q) = 1) ∧
    thresholdLabel (.fin (1 / 2)) = 1 ∧
    (∀ q : ℚ, q < 1 / 2 → thresholdLabel (.fin q) = 0) := by
  refine ⟨?_, ?_, ?_, ?_⟩
  · rw [generate_df_of_pre env df cfg yt texts probs h1 h2 h3]
    exact getCol_setCol_self _ _ _
  · intro q hq
    simp [thresholdLabel, FVal.ge05]
    linarith
  · simp [thresholdLabel, FVal.ge05]
  · intro q hq
    simp [thresholdLabel, FVal.ge05]
    linarith

/-- C2 witness: a concrete run with probabilities 0.1 and 0.9 yielding the
predicted-label column `[0, 1]`. -/
theorem claim_threshold_inclusive_witness :
    getCol df0 "yo2" = .ok [Val.int 0, Val.int 1] ∧
    getCol df0 "full_text" = .ok [Val.str "a", Val.str "b"] ∧
    env0.predict [Val.str "a", Val.str "b"]
      = .ok [FVal.fin (1 / 10), FVal.fin (9 / 10)] ∧
    (getCol (generate_evaluation_reports_and_plots env0 df0 cfg0).2.1
        "predicted_yo2"
      = .ok ([FVal.fin (1 / 10), FVal.fin (9 / 10)].map
          fun p => Val.int (thresholdLabel p)) ∧
    (∀ q : ℚ, 1 / 2 ≤ q → thresholdLabel (.fin q) = 1) ∧
    thresholdLabel (.fin (1 / 2)) = 1 ∧
    (∀ q : ℚ, q < 1 / 2 → thresholdLabel (.fin q) = 0)) :=
  ⟨rfl, rfl, rfl,
   claim_threshold_inclusive env0 df0 cfg0 [Val.int 0, Val.int 1]
     [Val.str "a", Val.str "b"] [FVal.fin (1 / 10), FVal.fin (9 / 10)]
     rfl rfl rfl⟩

/-- C9: whatever probability values the inference capability returns —
including values outside [0, 1] and the non-finite values `nan`, `inf`,
`-inf` — the comparison-and-cast construction `(p >= 0.5).astype(int)` only
ever produces 0 or 1, so every entry of the derived label column is 0 or 1. -/
theorem claim_labels_always_binary :
    (∀ p : FVal, thresholdLabel p = 0 ∨ thresholdLabel p = 1) ∧
    (∀ probs : List FVal,
      (probs.map thresholdLabel).all (fun x => decide (x = 0 ∨ x = 1)) = true) := by
  constructor
  · intro p
    unfold thresholdLabel
    cases p.ge05 <;> simp
  · intro probs
    rw [List.all_eq_true]
    intro x hx
    rw [List.mem_map] at hx
    obtain ⟨p, _, hp⟩ := hx
    subst hp
    unfold thresholdLabel
    cases p.ge05 <;> simp

/-- C6: on the spec's example — true labels `[0, 0, 1, 1]`, probabilities
`[0.1, 0.4, 0.6, 0.9]` — the derived labels are `[0, 0, 1, 1]`, the confusion
matrix rendered by `plot_confusion_matrix` is `[[2, 0], [0, 2]]`, the ROC AUC
drawn by `plot_roc_curve` is 1, and the average precision drawn by
`plot_precision_recall_curve` is 1. -/
theorem claim_example_scenario :
    ([FVal.fin (1 / 10), FVal.fin (4 / 10), FVal.fin (6 / 10),
        FVal.fin (9 / 10)].map thresholdLabel = [0, 0, 1, 1]) ∧
    cmOf [Val.int 0, Val.int 0, Val.int 1, Val.int 1]
        [Val.int 0, Val.int 0, Val.int 1, Val.int 1] = [[2, 0], [0, 2]] ∧
    Eff.plotCM [[2, 0], [0, 2]] ∈
      (plot_confusion_matrix env0
        [Val.int 0, Val.int 0, Val.int 1, Val.int 1]
        [Val.int 0, Val.int 0, Val.int 1, Val.int 1] "out").1 ∧
    rocAUC [Val.int 0, Val.int 0, Val.int 1, Val.int 1]
      [FVal.fin (1 / 10), FVal.fin (4 / 10), FVal.fin (6 / 10),
       FVal.fin (9 / 10)] = some 1 ∧
    Eff.plotROC (some 1) ∈
      (plot_roc_curve env0 [Val.int 0, Val.int 0, Val.int 1, Val.int 1]
        [FVal.fin (1 / 10), FVal.fin (4 / 10), FVal.fin (6 / 10),
         FVal.fin (9 / 10)] "out").1 ∧
    avgPrecision [Val.int 0, Val.int 0, Val.int 1, Val.int 1]
      [FVal.fin (1 / 10), FVal.fin (4 / 10), FVal.fin (6 / 10),
       FVal.fin (9 / 10)] = some 1 ∧
    Eff.plotPR (some 1) ∈
      (plot_precision_recall_curve env0
        [Val.int 0, Val.int 0, Val.int 1, Val.int 1]
        [FVal.fin (1 / 10), FVal.fin (4 / 10), FVal.fin (6 / 10),
         FVal.fin (9 / 10)] "out").1 := by
  have hlab : [FVal.fin (1 / 10), FVal.fin (4 / 10), FVal.fin (6 / 10),
      FVal.fin (9 / 10)].map thresholdLabel = [0, 0, 1, 1] := by
    norm_num [thresholdLabel, FVal.ge05]
  have hcm : cmOf [Val.int 0, Val.int 0, Val.int 1, Val.int 1]
      [Val.int 0, Val.int 0, Val.int 1, Val.int 1] = [[2, 0], [0, 2]] := by
    norm_num [cmOf, uniqueVals, sortAscBy, insertAscBy, dedupAdj, Val.leb,
      confusionMatrixL, List.countP, List.countP.go, List.zip, List.zipWith,
      Bool.cond_eq_ite, beq_iff_eq]
  have hroc : rocAUC [Val.int 0, Val.int 0, Val.int 1, Val.int 1]
      [FVal.fin (1 / 10), FVal.fin (4 / 10), FVal.fin (6 / 10),
       FVal.fin (9 / 10)] = some 1 := by
    norm_num [rocAUC, rocPoints, dedupSortDesc, sortAscBy, insertAscBy,
      dedupAdj, FVal.leb, trapezoid, tpAt, fpAt, List.countP, List.countP.go,
      List.count, List.zip, List.zipWith, Bool.cond_eq_ite, beq_iff_eq]
  have hap : avgPrecision [Val.int 0, Val.int 0, Val.int 1, Val.int 1]
      [FVal.fin (1 / 10), FVal.fin (4 / 10), FVal.fin (6 / 10),
       FVal.fin (9 / 10)] = some 1 := by
    norm_num [avgPrecision, apSum, dedupSortDesc, sortAscBy, insertAscBy,
      dedupAdj, FVal.leb, tpAt, fpAt, List.countP, List.countP.go, List.count,
      List.zip, List.zipWith, Bool.cond_eq_ite, beq_iff_eq]
  refine ⟨hlab, hcm, ?_, hroc, ?_, hap, ?_⟩
  · rw [plot_confusion_matrix_trace_ok env0 _ _ "out" rfl, hcm]
    simp
  · rw [plot_roc_curve_trace_ok env0 _ _ "out" rfl, hroc]
    simp
  · rw [plot_precision_recall_curve_trace_ok env0 _ _ "out" rfl, hap]
    simp

theorem joinPath_inj (d a b : String) (h : joinPath d a = joinPath d b) :
    a = b := by
  unfold joinPath at h
  have h2 := congrArg String.data h
  simp [String.data_append] at h2
  exact String.ext h2

theorem joinPath_ne (d a b : String) (hab : a ≠ b) :
    joinPath d a ≠ joinPath d b := fun h => hab (joinPath_inj d a b h)

/-- C3: when the union of true and predicted labels has exactly one distinct
value, both degenerate-aware generators pass the explicit single-label list:
the confusion matrix is the 1×1 matrix counting that label, the report has a
single row, both sub-operations return normally, and the corresponding
render/write effects occur. -/
theorem claim_single_class_degenerate (env : Env) (yt yp : List Val)
    (dir : String) (v : Val)
    (_hne : yt ≠ [])
    (hu : uniqueVals (yt ++ yp) = [v])
    (hf : env.fileOk (joinPath dir "classification_report.txt") = true) :
    cmOf yt yp = [[(yt.zip yp).countP fun r => r.1 = v ∧ r.2 = v]] ∧
    (plot_confusion_matrix env yt yp dir).2 = .ok () ∧
    Eff.plotCM [[(yt.zip yp).countP fun r => r.1 = v ∧ r.2 = v]]
      ∈ (plot_confusion_matrix env yt yp dir).1 ∧
    reportRowsOf yt yp = [rowFor yt yp v] ∧
    (generate_classification_report env yt yp dir).2 = .ok () ∧
    Eff.writeReport (joinPath dir "classification_report.txt")
      [rowFor yt yp v] ∈ (generate_classification_report env yt yp dir).1 := by
  have hcm : cmOf yt yp = [[(yt.zip yp).countP fun r => r.1 = v ∧ r.2 = v]] := by
    unfold cmOf
    rw [hu]
    simp [confusionMatrixL]
  have hrows : reportRowsOf yt yp = [rowFor yt yp v] := by
    unfold reportRowsOf
    rw [hu]
    simp [reportRows]
  refine ⟨hcm, plot_confusion_matrix_snd env yt yp dir, ?_, hrows,
    generate_classification_report_snd env yt yp dir, ?_⟩
  · cases hcmf : env.fileOk (joinPath dir "confusion_matrix.png") with
    | true =>
      rw [plot_confusion_matrix_trace_ok env yt yp dir hcmf, hcm]
      simp
    | false =>
      rw [plot_confusion_matrix_trace_fail env yt yp dir hcmf, hcm]
      simp
  · rw [generate_classification_report_trace_ok env yt yp dir hf, hrows]
    simp

/-- C3 witness: true and predicted labels both `[0, 0]`. -/
theorem claim_single_class_degenerate_witness :
    ([Val.int 0, Val.int 0] : List Val) ≠ [] ∧
    uniqueVals ([Val.int 0, Val.int 0] ++ [Val.int 0, Val.int 0]) = [Val.int 0] ∧
    env0.fileOk (joinPath "out" "classification_report.txt") = true ∧
    (cmOf [Val.int 0, Val.int 0] [Val.int 0, Val.int 0] =
      [[(([Val.int 0, Val.int 0] : List Val).zip
          ([Val.int 0, Val.int 0] : List Val)).countP
            fun r => r.1 = Val.int 0 ∧ r.2 = Val.int 0]] ∧
    (plot_confusion_matrix env0 [Val.int 0, Val.int 0] [Val.int 0, Val.int 0]
      "out").2 = .ok () ∧
    Eff.plotCM [[(([Val.int 0, Val.int 0] : List Val).zip
          ([Val.int 0, Val.int 0] : List Val)).countP
            fun r => r.1 = Val.int 0 ∧ r.2 = Val.int 0]]
      ∈ (plot_confusion_matrix env0 [Val.int 0, Val.int 0]
          [Val.int 0, Val.int 0] "out").1 ∧
    reportRowsOf [Val.int 0, Val.int 0] [Val.int 0, Val.int 0] =
      [rowFor [Val.int 0, Val.int 0] [Val.int 0, Val.int 0] (Val.int 0)] ∧
    (generate_classification_report env0 [Val.int 0, Val.int 0]
      [Val.int 0, Val.int 0] "out").2 = .ok () ∧
    Eff.writeReport (joinPath "out" "classification_report.txt")
      [rowFor [Val.int 0, Val.int 0] [Val.int 0, Val.int 0] (Val.int 0)]
      ∈ (generate_classification_report env0 [Val.int 0, Val.int 0]
          [Val.int 0, Val.int 0] "out").1) :=
  ⟨by decide, by decide, rfl,
   claim_single_class_degenerate env0 [Val.int 0, Val.int 0]
     [Val.int 0, Val.int 0] "out" (Val.int 0) (by decide) (by decide) rfl⟩

/-- C4: the four artifact generators are failure-isolated: with no
assumption on which file operations fail, all four generators are invoked,
so every generator whose own write succeeds still produces its artifact —
in particular, whenever any one sub-operation fails, the artifacts of the
three others are still produced — and every generator whose write fails has
its failure caught and logged. -/
theorem claim_any_subop_failure_isolated (env : Env) (df : DataFrame)
    (cfg : Config) (yt texts : List Val) (probs : List FVal)
    (h1 : getCol df "yo2" = .ok yt)
    (h2 : getCol df "full_text" = .ok texts)
    (h3 : env.predict texts = .ok probs)
    (hmk : env.mkdirOk = true) :
    (env.fileOk (joinPath cfg.output_dir "confusion_matrix.png") = true →
      Eff.savefig (joinPath cfg.output_dir "confusion_matrix.png")
        ∈ (generate_evaluation_reports_and_plots env df cfg).1) ∧
    (env.fileOk (joinPath cfg.output_dir "classification_report.txt") = true →
      Eff.writeReport (joinPath cfg.output_dir "classification_report.txt")
          (reportRowsOf yt (probs.map fun p => Val.int (thresholdLabel p)))
        ∈ (generate_evaluation_reports_and_plots env df cfg).1) ∧
    (env.fileOk (joinPath cfg.output_dir "roc_curve.png") = true →
      Eff.savefig (joinPath cfg.output_dir "roc_curve.png")
        ∈ (generate_evaluation_reports_and_plots env df cfg).1) ∧
    (env.fileOk (joinPath cfg.output_dir "precision_recall_curve.png") = true →
      Eff.savefig (joinPath cfg.output_dir "precision_recall_curve.png")
        ∈ (generate_evaluation_reports_and_plots env df cfg).1) ∧
    (env.fileOk (joinPath cfg.output_dir "confusion_matrix.png") = false →
      Eff.log .error ("Failed to generate confusion matrix: " ++
          errMsg (.ioError (joinPath cfg.output_dir "confusion_matrix.png")))
        ∈ (generate_evaluation_reports_and_plots env df cfg).1) ∧
    (env.fileOk (joinPath cfg.output_dir "classification_report.txt") = false →
      Eff.log .error ("Failed to generate classification report: " ++
          errMsg (.ioError (joinPath cfg.output_dir "classification_report.txt")))
        ∈ (generate_evaluation_reports_and_plots env df cfg).1) ∧
    (env.fileOk (joinPath cfg.output_dir "roc_curve.png") = false →
      Eff.log .error ("Failed to generate ROC curve: " ++
          errMsg (.ioError (joinPath cfg.output_dir "roc_curve.png")))
        ∈ (generate_evaluation_reports_and_plots env df cfg).1) ∧
    (env.fileOk (joinPath cfg.output_dir "precision_recall_curve.png") = false →
      Eff.log .error ("Failed to generate Precision-Recall curve: " ++
          errMsg (.ioError (joinPath cfg.output_dir "precision_recall_curve.png")))
        ∈ (generate_evaluation_reports_and_plots env df cfg).1) := by
  rw [generate_trace_of_success env df cfg yt texts probs h1 h2 h3 hmk]
  refine ⟨?_, ?_, ?_, ?_, ?_, ?_, ?_, ?_⟩
  · intro hf
    rw [plot_confusion_matrix_trace_ok env _ _ _ hf]
    simp
  · intro hf
    rw [generate_classification_report_trace_ok env _ _ _ hf]
    simp
  · intro hf
    rw [plot_roc_curve_trace_ok env _ _ _ hf]
    simp
  · intro hf
    rw [plot_precision_recall_curve_trace_ok env _ _ _ hf]
    simp
  · intro hf
    rw [plot_confusion_matrix_trace_fail env _ _ _ hf]
    simp
  · intro hf
    rw [generate_classification_report_trace_fail env _ _ _ hf]
    simp
  · intro hf
    rw [plot_roc_curve_trace_fail env _ _ _ hf]
    simp
  · intro hf
    rw [plot_precision_recall_curve_trace_fail env _ _ _ hf]
    simp

/-- C4 witness: a concrete run in which exactly the report write fails; the
theorem instance gives the three saved PNGs and the logged report failure. -/
theorem claim_any_subop_failure_isolated_witness :
    getCol df0 "yo2" = .ok [Val.int 0, Val.int 1] ∧
    getCol df0 "full_text" = .ok [Val.str "a", Val.str "b"] ∧
    env1.predict [Val.str "a", Val.str "b"]
      = .ok [FVal.fin (1 / 10), FVal.fin (9 / 10)] ∧
    env1.mkdirOk = true ∧
    ((env1.fileOk (joinPath cfg0.output_dir "confusion_matrix.png") = true →
      Eff.savefig (joinPath cfg0.output_dir "confusion_matrix.png")
        ∈ (generate_evaluation_reports_and_plots env1 df0 cfg0).1) ∧
    (env1.fileOk (joinPath cfg0.output_dir "classification_report.txt") = true →
      Eff.writeReport (joinPath cfg0.output_dir "classification_report.txt")
          (reportRowsOf [Val.int 0, Val.int 1]
            ([FVal.fin (1 / 10), FVal.fin (9 / 10)].map
              fun p => Val.int (thresholdLabel p)))
        ∈ (generate_evaluation_reports_and_plots env1 df0 cfg0).1) ∧
    (env1.fileOk (joinPath cfg0.output_dir "roc_curve.png") = true →
      Eff.savefig (joinPath cfg0.output_dir "roc_curve.png")
        ∈ (generate_evaluation_reports_and_plots env1 df0 cfg0).1) ∧
    (env1.fileOk (joinPath cfg0.output_dir "precision_recall_curve.png") = true →
      Eff.savefig (joinPath cfg0.output_dir "precision_recall_curve.png")
        ∈ (generate_evaluation_reports_and_plots env1 df0 cfg0).1) ∧
    (env1.fileOk (joinPath cfg0.output_dir "confusion_matrix.png") = false →
      Eff.log .error ("Failed to generate confusion matrix: " ++
          errMsg (.ioError (joinPath cfg0.output_dir "confusion_matrix.png")))
        ∈ (generate_evaluation_reports_and_plots env1 df0 cfg0).1) ∧
    (env1.fileOk (joinPath cfg0.output_dir "classification_report.txt") = false →
      Eff.log .error ("Failed to generate classification report: " ++
          errMsg (.ioError (joinPath cfg0.output_dir "classification_report.txt")))
        ∈ (generate_evaluation_reports_and_plots env1 df0 cfg0).1) ∧
    (env1.fileOk (joinPath cfg0.output_dir "roc_curve.png") = false →
      Eff.log .error ("Failed to generate ROC curve: " ++
          errMsg (.ioError (joinPath cfg0.output_dir "roc_curve.png")))
        ∈ (generate_evaluation_reports_and_plots env1 df0 cfg0).1) ∧
    (env1.fileOk (joinPath cfg0.output_dir "precision_recall_curve.png") = false →
      Eff.log .error ("Failed to generate Precision-Recall curve: " ++
          errMsg (.ioError (joinPath cfg0.output_dir "precision_recall_curve.png")))
        ∈ (generate_evaluation_reports_and_plots env1 df0 cfg0).1)) :=
  ⟨rfl, rfl, rfl, rfl,
   claim_any_subop_failure_isolated env1 df0 cfg0 [Val.int 0, Val.int 1]
     [Val.str "a", Val.str "b"] [FVal.fin (1 / 10), FVal.fin (9 / 10)]
     rfl rfl rfl rfl⟩

/-- C5: on a successful run over a dataset with at least one positive and one
negative example, the directory is created before any file write and exactly
the four artifacts, with their fixed relative names, are written under the
configured output directory, in order. -/
theorem claim_four_artifacts_written (env : Env) (df : DataFrame)
    (cfg : Config) (yt texts : List Val) (probs : List FVal)
    (h1 : getCol df "yo2" = .ok yt)
    (h2 : getCol df "full_text" = .ok texts)
    (h3 : env.predict texts = .ok probs)
    (_hpos : Val.int 1 ∈ yt) (_hneg : Val.int 0 ∈ yt)
    (hmk : env.mkdirOk = true)
    (f1 : env.fileOk (joinPath cfg.output_dir "confusion_matrix.png") = true)
    (f2 : env.fileOk (joinPath cfg.output_dir "classification_report.txt") = true)
    (f3 : env.fileOk (joinPath cfg.output_dir "roc_curve.png") = true)
    (f4 : env.fileOk (joinPath cfg.output_dir "precision_recall_curve.png") = true) :
    writesOf (generate_evaluation_reports_and_plots env df cfg).1 =
      [joinPath cfg.output_dir "confusion_matrix.png",
       joinPath cfg.output_dir "classification_report.txt",
       joinPath cfg.output_dir "roc_curve.png",
       joinPath cfg.output_dir "precision_recall_curve.png"] ∧
    (∃ rest,
      (generate_evaluation_reports_and_plots env df cfg).1 =
        [Eff.log .info "Generating evaluation reports and plots...",
         Eff.log .info "Calculating predicted probabilities...",
         Eff.mkdirs cfg.output_dir] ++ rest) := by
  rw [generate_trace_of_success env df cfg yt texts probs h1 h2 h3 hmk,
    plot_confusion_matrix_trace_ok env _ _ _ f1,
    generate_classification_report_trace_ok env _ _ _ f2,
    plot_roc_curve_trace_ok env _ _ _ f3,
    plot_precision_recall_curve_trace_ok env _ _ _ f4]
  constructor
  · simp [writesOf_append, writesOf]
  · exact ⟨_, rfl⟩

/-- C5 witness: a concrete fully-successful two-class run. -/
theorem claim_four_artifacts_written_witness :
    getCol df0 "yo2" = .ok [Val.int 0, Val.int 1] ∧
    getCol df0 "full_text" = .ok [Val.str "a", Val.str "b"] ∧
    env0.predict [Val.str "a", Val.str "b"]
      = .ok [FVal.fin (1 / 10), FVal.fin (9 / 10)] ∧
    Val.int 1 ∈ ([Val.int 0, Val.int 1] : List Val) ∧
    Val.int 0 ∈ ([Val.int 0, Val.int 1] : List Val) ∧
    env0.mkdirOk = true ∧
    env0.fileOk (joinPath cfg0.output_dir "confusion_matrix.png") = true ∧
    env0.fileOk (joinPath cfg0.output_dir "classification_report.txt") = true ∧
    env0.fileOk (joinPath cfg0.output_dir "roc_curve.png") = true ∧
    env0.fileOk (joinPath cfg0.output_dir "precision_recall_curve.png") = true ∧
    (writesOf (generate_evaluation_reports_and_plots env0 df0 cfg0).1 =
      [joinPath cfg0.output_dir "confusion_matrix.png",
       joinPath cfg0.output_dir "classification_report.txt",
       joinPath cfg0.output_dir "roc_curve.png",
       joinPath cfg0.output_dir "precision_recall_curve.png"] ∧
    (∃ rest,
      (generate_evaluation_reports_and_plots env0 df0 cfg0).1 =
        [Eff.log .info "Generating evaluation reports and plots...",
         Eff.log .info "Calculating predicted probabilities...",
         Eff.mkdirs cfg0.output_dir] ++ rest)) :=
  ⟨rfl, rfl, rfl, by decide, by decide, rfl, rfl, rfl, rfl, rfl,
   claim_four_artifacts_written env0 df0 cfg0 [Val.int 0, Val.int 1]
     [Val.str "a", Val.str "b"] [FVal.fin (1 / 10), FVal.fin (9 / 10)]
     rfl rfl rfl (by decide) (by decide) rfl rfl rfl rfl rfl⟩

/-- An environment in which every file save fails. -/
def env2 : Env := ⟨fun _ => .ok [], true, fun _ => false⟩

/-- C7 counterexample: when saving the confusion-matrix figure fails, the
figure opened by `disp.plot()` is never closed — the failure exit path of
`plot_confusion_matrix` leaves one figure open (one opening effect, zero
closing effects), so the claim that every generator closes its figure on
every exit path, including failure, is false. -/
theorem claim_figures_closed_counterexample :
    (plot_confusion_matrix env2 [Val.int 0] [Val.int 0] "out").1.countP
      opensFig = 1 ∧
    (plot_confusion_matrix env2 [Val.int 0] [Val.int 0] "out").1.countP
      closesFig = 0 := by
  constructor <;> decide

/-- C7 amended: each plot-drawing generator closes its figure on every
successful exit path (opening and closing effects balance); the failure exit
path, shown by the counterexample, does not close the figure. -/
theorem claim_figures_closed_on_success (env : Env) (yt yp : List Val)
    (ys : List FVal) (dir : String)
    (h1 : env.fileOk (joinPath dir "confusion_matrix.png") = true)
    (h2 : env.fileOk (joinPath dir "roc_curve.png") = true)
    (h3 : env.fileOk (joinPath dir "precision_recall_curve.png") = true) :
    (plot_confusion_matrix env yt yp dir).1.countP opensFig =
      (plot_confusion_matrix env yt yp dir).1.countP closesFig ∧
    (plot_roc_curve env yt ys dir).1.countP opensFig =
      (plot_roc_curve env yt ys dir).1.countP closesFig ∧
    (plot_precision_recall_curve env yt ys dir).1.countP opensFig =
      (plot_precision_recall_curve env yt ys dir).1.countP closesFig := by
  rw [plot_confusion_matrix_trace_ok env yt yp dir h1,
    plot_roc_curve_trace_ok env yt ys dir h2,
    plot_precision_recall_curve_trace_ok env yt ys dir h3]
  refine ⟨?_, ?_, ?_⟩ <;> simp [opensFig, closesFig, List.countP_cons]

/-- C7 amended witness: the fully-cooperative environment balances figure
openings and closings in all three plotting generators. -/
theorem claim_figures_closed_on_success_witness :
    env0.fileOk (joinPath "out" "confusion_matrix.png") = true ∧
    env0.fileOk (joinPath "out" "roc_curve.png") = true ∧
    env0.fileOk (joinPath "out" "precision_recall_curve.png") = true ∧
    ((plot_confusion_matrix env0 [Val.int 0] [Val.int 0] "out").1.countP
        opensFig =
      (plot_confusion_matrix env0 [Val.int 0] [Val.int 0] "out").1.countP
        closesFig ∧
    (plot_roc_curve env0 [Val.int 0] [] "out").1.countP opensFig =
      (plot_roc_curve env0 [Val.int 0] [] "out").1.countP closesFig ∧
    (plot_precision_recall_curve env0 [Val.int 0] [] "out").1.countP opensFig =
      (plot_precision_recall_curve env0 [Val.int 0] [] "out").1.countP
        closesFig) :=
  ⟨rfl, rfl, rfl,
   claim_figures_closed_on_success env0 [Val.int 0] [Val.int 0] [] "out"
     rfl rfl rfl⟩

/-- C8: a run that reaches the column assignments modifies the table only at
the two new columns `predicted_proba` and `predicted_yo2` — which hold the
probabilities and the thresholded labels — and every other column, including
`yo2` and `full_text`, reads exactly as in the input table. -/
theorem claim_frame_only_two_columns (env : Env) (df : DataFrame)
    (cfg : Config) (yt texts : List Val) (probs : List FVal)
    (h1 : getCol df "yo2" = .ok yt)
    (h2 : getCol df "full_text" = .ok texts)
    (h3 : env.predict texts = .ok probs) :
    getCol (generate_evaluation_reports_and_plots env df cfg).2.1
      "predicted_proba" = .ok (probs.map Val.fl) ∧
    getCol (generate_evaluation_reports_and_plots env df cfg).2.1
      "predicted_yo2" = .ok (probs.map fun p => Val.int (thresholdLabel p)) ∧
    ∀ c, c ≠ "predicted_proba" → c ≠ "predicted_yo2" →
      getCol (generate_evaluation_reports_and_plots env df cfg).2.1 c =
        getCol df c := by
  rw [generate_df_of_pre env df cfg yt texts probs h1 h2 h3]
  refine ⟨?_, getCol_setCol_self _ _ _, ?_⟩
  · rw [getCol_setCol_ne _ _ _ _ (by decide)]
    exact getCol_setCol_self _ _ _
  · intro c hcp hcy
    rw [getCol_setCol_ne _ _ _ _ hcy, getCol_setCol_ne _ _ _ _ hcp]

/-- C8 witness: the concrete run leaves `yo2` and `full_text` unchanged and
adds the two derived columns. -/
theorem claim_frame_only_two_columns_witness :
    getCol df0 "yo2" = .ok [Val.int 0, Val.int 1] ∧
    getCol df0 "full_text" = .ok [Val.str "a", Val.str "b"] ∧
    env0.predict [Val.str "a", Val.str "b"]
      = .ok [FVal.fin (1 / 10), FVal.fin (9 / 10)] ∧
    (getCol (generate_evaluation_reports_and_plots env0 df0 cfg0).2.1
      "predicted_proba"
      = .ok ([FVal.fin (1 / 10), FVal.fin (9 / 10)].map Val.fl) ∧
    getCol (generate_evaluation_reports_and_plots env0 df0 cfg0).2.1
      "predicted_yo2"
      = .ok ([FVal.fin (1 / 10), FVal.fin (9 / 10)].map
          fun p => Val.int (thresholdLabel p)) ∧
    ∀ c, c ≠ "predicted_proba" → c ≠ "predicted_yo2" →
      getCol (generate_evaluation_reports_and_plots env0 df0 cfg0).2.1 c =
        getCol df0 c) :=
  ⟨rfl, rfl, rfl,
   claim_frame_only_two_columns env0 df0 cfg0 [Val.int 0, Val.int 1]
     [Val.str "a", Val.str "b"] [FVal.fin (1 / 10), FVal.fin (9 / 10)]
     rfl rfl rfl⟩

/-- C10: if a step before the `os.makedirs` call fails — a missing `yo2` or
`full_text` column, or a raising inference call — the operation returns
normally, its trace contains only log effects (no directory creation, no
figure activity, no file write, no sub-operation invocation), and an error
is logged. -/
theorem claim_prefail_no_artifacts (env : Env) (df : DataFrame) (cfg : Config)
    (h : preFails env df = true) :
    (generate_evaluation_reports_and_plots env df cfg).2.2 = .ok () ∧
    (generate_evaluation_reports_and_plots env df cfg).1.all
      (fun e => !(isArtifactEff e)) = true ∧
    ∃ m, Eff.log .error m ∈ (generate_evaluation_reports_and_plots env df cfg).1 := by
  unfold preFails at h
  cases h1 : getCol df "yo2" with
  | error e1 =>
    refine ⟨?_, ?_,
      ⟨"Failed to generate evaluation reports and plots: " ++ errMsg e1, ?_⟩⟩ <;>
      simp [generate_evaluation_reports_and_plots, generateBody, h1, isArtifactEff]
  | ok yt =>
    simp only [h1] at h
    cases h2 : getCol df "full_text" with
    | error e2 =>
      refine ⟨?_, ?_,
        ⟨"Failed to generate evaluation reports and plots: " ++ errMsg e2, ?_⟩⟩ <;>
        simp [generate_evaluation_reports_and_plots, generateBody, h1, h2,
          isArtifactEff]
    | ok texts =>
      simp only [h2] at h
      cases h3 : env.predict texts with
      | error e3 =>
        refine ⟨?_, ?_,
          ⟨"Failed to generate evaluation reports and plots: " ++ errMsg e3, ?_⟩⟩ <;>
          simp [generate_evaluation_reports_and_plots, generateBody, h1, h2, h3,
            isArtifactEff]
      | ok probs =>
        simp only [h3] at h
        simp at h

/-- C10 witness: a data frame lacking the `yo2` column. -/
theorem claim_prefail_no_artifacts_witness :
    preFails env0 [("full_text", [Val.str "a"])] = true ∧
    ((generate_evaluation_reports_and_plots env0
        [("full_text", [Val.str "a"])] cfg0).2.2 = .ok () ∧
    (generate_evaluation_reports_and_plots env0
        [("full_text", [Val.str "a"])] cfg0).1.all
      (fun e => !(isArtifactEff e)) = true ∧
    ∃ m, Eff.log .error m ∈
      (generate_evaluation_reports_and_plots env0
        [("full_text", [Val.str "a"])] cfg0).1) :=
  ⟨by decide,
   claim_prefail_no_artifacts env0 [("full_text", [Val.str "a"])] cfg0
     (by decide)⟩

end VisualResults
